import Mathlib

/-!
Verification of the momentum simulation engine
(`backend/momentum_sim/simulation/engine.py` and the crowd model in
`backend/momentum_sim/core/crowd.py`, with the request-layer validator from
`backend/middleware/validation.py`).

Python floats are modelled as real numbers.  Python `round(x, k)` is modelled
with Mathlib's `round` (round half up); Python rounds halves to even, but the
two agree on every value that is not an exact odd multiple of `1/(2*10^k)`,
and no property proved below distinguishes the two tie conventions.
`np.clip(x, lo, hi)` is modelled as `max lo (min x hi)` (equal for `lo ≤ hi`,
which is the case at every call site).
-/

namespace MomentumSim

noncomputable section

/-- Model of `np.clip(x, lo, hi)` for `lo ≤ hi`. -/
def clip (x lo hi : ℝ) : ℝ := max lo (min x hi)

/-- Model of Python `round(x, k)`: round to `k` decimal places. -/
def roundTo (k : ℕ) (x : ℝ) : ℝ := (round (x * 10 ^ k) : ℝ) / 10 ^ k

/-- Model of `math.hypot(a, b)`. -/
def hypot (a b : ℝ) : ℝ := Real.sqrt (a ^ 2 + b ^ 2)

/-! ## Constants (engine.py, CONSTANTS section) -/

/-- `EVENT_BASE_IMPACTS` dict; `.get(event_type, 0.0)` is the `else 0` branch. -/
def EVENT_BASE_IMPACTS (et : String) : ℝ :=
  if et = "pass" then 2.0
  else if et = "key_pass" then 3.5
  else if et = "through_ball" then 4.0
  else if et = "cross" then 2.5
  else if et = "tackle" then 5.0
  else if et = "tackle_won" then 6.0
  else if et = "interception" then 3.0
  else if et = "clearance" then 2.0
  else if et = "shot" then 4.0
  else if et = "shot_on_target" then 5.5
  else if et = "goal" then 15.0
  else if et = "goal_conceded" then -10.0
  else if et = "save" then 5.0
  else if et = "foul" then -3.0
  else if et = "yellow_card" then -4.0
  else if et = "red_card" then -12.0
  else if et = "turnover" then -2.5
  else if et = "dribble" then 3.0
  else if et = "dribble_success" then 4.5
  else if et = "press" then 1.5
  else 0.0

/-- The keys of `EVENT_BASE_IMPACTS`. -/
def knownEventTypes : List String :=
  ["pass", "key_pass", "through_ball", "cross", "tackle", "tackle_won",
   "interception", "clearance", "shot", "shot_on_target", "goal",
   "goal_conceded", "save", "foul", "yellow_card", "red_card", "turnover",
   "dribble", "dribble_success", "press"]

/-- `POSITION_MODS[pos].get(et, POSITION_MODS[pos].get("default", 1.0))`;
no inner dict has a `"default"` key, so the fallback is 1.0. -/
def POSITION_MODS (pos et : String) : ℝ :=
  if pos = "GK" then
    (if et = "save" then 1.5 else if et = "tackle" then 0.9
     else if et = "pass" then 0.8 else 1.0)
  else if pos = "DEF" then
    (if et = "tackle" then 1.3 else if et = "tackle_won" then 1.4
     else if et = "clearance" then 1.4 else if et = "interception" then 1.3
     else if et = "goal" then 1.8 else 1.0)
  else if pos = "MID" then
    (if et = "pass" then 1.2 else if et = "key_pass" then 1.3
     else if et = "through_ball" then 1.4 else if et = "goal" then 1.5 else 1.0)
  else if pos = "FWD" then
    (if et = "shot" then 1.3 else if et = "shot_on_target" then 1.4
     else if et = "goal" then 1.2 else if et = "dribble_success" then 1.3 else 1.0)
  else 1.0

/-- `GAME_STATE_MODS.get(game_state, 1.0)`. -/
def GAME_STATE_MODS (gs : String) : ℝ :=
  if gs = "leading" then 0.9 else if gs = "tied" then 1.0
  else if gs = "losing" then 1.2 else 1.0

/-- `ZONE_MODS.get(zone, 1.0)`. -/
def ZONE_MODS (z : String) : ℝ :=
  if z = "defensive_third" then 0.8 else if z = "middle_third" then 1.0
  else if z = "attacking_third" then 1.5 else 1.0

/-- `RESILIENCE_MAP.get(tier, 0.70)`. -/
def RESILIENCE_MAP (tier : String) : ℝ :=
  if tier = "veteran" then 0.90 else if tier = "experienced" then 0.75
  else if tier = "young" then 0.60 else if tier = "rookie" then 0.45 else 0.70

/-- The static `FORMATION_COHERENCE` lookup table (`None` = key absent). -/
def FORMATION_COHERENCE (f : String) : Option ℝ :=
  if f = "4-3-3" then some 0.87 else if f = "3-5-2" then some 0.82
  else if f = "5-3-2" then some 0.85 else if f = "4-2-4" then some 0.78
  else if f = "4-4-2" then some 0.84 else if f = "3-4-3" then some 0.80
  else if f = "4-2-3-1" then some 0.86 else if f = "4-1-4-1" then some 0.83
  else if f = "4-3-2-1" then some 0.82 else none

/-- `DECAY_RATES.get(event_type, DECAY_RATES["default"])`. -/
def DECAY_RATES (et : String) : ℝ :=
  if et = "goal" then 0.20 else if et = "goal_conceded" then 0.25
  else if et = "tackle" then 0.15 else if et = "shot" then 0.12
  else if et = "pass" then 0.05 else if et = "foul" then 0.08 else 0.08

def GOAL_CONCEDED_LAMBDA : ℝ := 0.03

def PITCH_LENGTH : ℝ := 105.0

/-! ## PlayerState (engine.py `@dataclass PlayerState`)

The append-only reporting buffers `pmu_history` and `event_log` are omitted:
they are written but never read by any of the update rules below. -/

structure PlayerState where
  id : String
  name : String
  position : String
  team : String
  resilience_tier : String
  skill : ℝ
  speed : ℝ
  baseline_energy : ℝ := 0.0
  event_impact : ℝ := 0.0
  crowd_impact : ℝ := 0.0
  fatigue : ℝ := 0.0
  pmu : ℝ := 0.0
  x : ℝ := 52.5
  y : ℝ := 34.0

/-- Property `PlayerState.resilience`. -/
def PlayerState.resilience (p : PlayerState) : ℝ := RESILIENCE_MAP p.resilience_tier

/-- `PlayerState.recalc_pmu`:
`pmu = float(np.clip(baseline_energy + event_impact + crowd_impact - fatigue*0.30, 0, 100))`. -/
def PlayerState.recalc_pmu (p : PlayerState) : PlayerState :=
  { p with pmu := clip (p.baseline_energy + p.event_impact + p.crowd_impact - p.fatigue * 0.30) 0 100 }

/-! ## EventProcessor -/

/-- `EventProcessor.zone_from_x`. -/
def EventProcessor.zone_from_x (x : ℝ) (team : String) : String :=
  if team = "A" then
    (if x < PITCH_LENGTH / 3 then "defensive_third"
     else if x < 2 * PITCH_LENGTH / 3 then "middle_third"
     else "attacking_third")
  else
    (if x > 2 * PITCH_LENGTH / 3 then "defensive_third"
     else if x > PITCH_LENGTH / 3 then "middle_third"
     else "attacking_third")

/-- `EventProcessor.minute_modifier`:
`round(max(0.55, min(1.35, 0.65 + 0.65*sin(pi*t - pi/2))), 3)` with `t = minute/90`. -/
def EventProcessor.minute_modifier (minute : ℤ) : ℝ :=
  let t : ℝ := (minute : ℝ) / 90
  roundTo 3 (max 0.55 (min 1.35 (0.65 + 0.65 * Real.sin (Real.pi * t - Real.pi / 2))))

/-- `EventProcessor.compute`: contextualised impact, clipped to `[-25, 25]`,
rounded to 3 decimals.  A failed event first scales the base impact by 0.30. -/
def EventProcessor.compute (event_type : String) (player : PlayerState)
    (game_state : String) (minute : ℤ) (success : Bool) : ℝ :=
  let base0 := EVENT_BASE_IMPACTS event_type
  let base := if success then base0 else base0 * 0.30
  let pos_factor := POSITION_MODS player.position event_type
  let state_factor := GAME_STATE_MODS game_state
  let zone_factor := ZONE_MODS (EventProcessor.zone_from_x player.x player.team)
  let min_factor := EventProcessor.minute_modifier minute
  roundTo 3 (clip (base * pos_factor * state_factor * zone_factor * min_factor) (-25) 25)

/-! ## FatigueModel -/

/-- `FatigueModel.update`: fatigue accumulation with hardcoded fitness 0.85,
clipped to `[0, 100]`, followed by `recalc_pmu()`. -/
def FatigueModel.update (player : PlayerState) (speed distance acceleration : ℝ)
    (sprint_events : ℤ) (is_stoppage : Bool) : PlayerState :=
  let fitness : ℝ := 0.85
  let factor := 2.0 - fitness
  let delta := (speed * 0.002 + distance * 0.0001 + |acceleration| * 0.010
      + (sprint_events : ℝ) * 0.50) * factor
  let recovery : ℝ := if is_stoppage then 0.020 else 0.010
  PlayerState.recalc_pmu { player with fatigue := clip (player.fatigue + delta - recovery) 0 100 }

/-! ## DecayModel -/

/-- `DecayModel.apply`: exponential shock decay for `goal_conceded`,
linear per-type decay otherwise; the result is floored at 0. -/
def DecayModel.apply (player : PlayerState) (event_type : String) (dt : ℝ) : PlayerState :=
  let rate := DECAY_RATES event_type
  let decay_amount :=
    if event_type = "goal_conceded" then
      |player.event_impact| * (1.0 - Real.exp (-GOAL_CONCEDED_LAMBDA * dt))
    else rate * dt
  PlayerState.recalc_pmu
    { player with event_impact := max 0 (player.event_impact * player.resilience - decay_amount) }

/-- Repeated `DecayModel.apply` calls over an event sequence. -/
def DecayModel.applyList (player : PlayerState) : List (String × ℝ) → PlayerState
  | [] => player
  | (et, dt) :: rest => DecayModel.applyList (DecayModel.apply player et dt) rest

/-! ## PressureEngine -/

def PRESSURE_DECAY_RADIUS : ℝ := 6.0

def PRESSURE_CONE_DEG : ℝ := 120.0

/-- `PressureEngine.distance_decay`: `exp(-max(0.1, dist) / radius)`. -/
def PressureEngine.distance_decay (dist : ℝ) (radius : ℝ := PRESSURE_DECAY_RADIUS) : ℝ :=
  Real.exp (-(max 0.1 dist) / radius)

/-- `PressureEngine.cone_factor`: cosine-based cone check; `math.radians(x)`
is `x * pi / 180`. -/
def PressureEngine.cone_factor (px py fx fy tx ty : ℝ)
    (cone_deg : ℝ := PRESSURE_CONE_DEG) : ℝ :=
  let dx := tx - px
  let dy := ty - py
  let dist := hypot dx dy
  if dist < 0.1 then 0.0
  else
    let ndx := dx / dist
    let ndy := dy / dist
    let fn := hypot fx fy
    if fn < 1e-9 then 0.5
    else
      let nfx := fx / fn
      let nfy := fy / fn
      let cos_a := ndx * nfx + ndy * nfy
      let cos_half := Real.cos (cone_deg / 2 * Real.pi / 180)
      if cos_a < cos_half then 0.0
      else max 0 ((cos_a - cos_half) / (1 - cos_half + 1e-9))

/-- The product `pmu * coherence * distance_decay * cone_factor` that
`PressureEngine.compute_impact` clips and rounds (the facing direction passed
to the cone factor is toward the target, as in the source). -/
def PressureEngine.raw_impact (pressurer target : PlayerState)
    (formation_coherence : ℝ) : ℝ :=
  let dist := hypot (pressurer.x - target.x) (pressurer.y - target.y)
  let d_factor := PressureEngine.distance_decay dist
  let c_factor := PressureEngine.cone_factor pressurer.x pressurer.y
      (target.x - pressurer.x) (target.y - pressurer.y) target.x target.y
  pressurer.pmu * formation_coherence * d_factor * c_factor

/-- `PressureEngine.compute_impact`: the raw product clipped to `[0, 50]`
and rounded to 3 decimals. -/
def PressureEngine.compute_impact (pressurer target : PlayerState)
    (formation_coherence : ℝ) : ℝ :=
  roundTo 3 (clip (PressureEngine.raw_impact pressurer target formation_coherence) 0 50)

/-! ## CrowdEngine (engine.py) and CrowdInfluenceModel (core/crowd.py) -/

/-- `tier_exp.get(resilience_tier, 5)` inside `CrowdEngine.compute`. -/
def TIER_EXP (tier : String) : ℤ :=
  if tier = "veteran" then 12 else if tier = "experienced" then 7
  else if tier = "young" then 3 else if tier = "rookie" then 1 else 5

/-- The experience-modifier loop of `CrowdEngine.compute`, over breakpoints
`{1: 1.2, 5: 1.0, 10: 0.7, 15: 0.5}`: the first key `k` with `exp_years ≤ k`
selects either the first table value (at `k = 1`) or the linear interpolation
between the previous key and `k`; if no key matches, the last value 0.5. -/
def CrowdEngine.exp_mod_of_years (exp_years : ℤ) : ℝ :=
  if exp_years ≤ 1 then 1.2
  else if exp_years ≤ 5 then
    1.2 * (1 - ((exp_years : ℝ) - 1) / 4) + 1.0 * (((exp_years : ℝ) - 1) / 4)
  else if exp_years ≤ 10 then
    1.0 * (1 - ((exp_years : ℝ) - 5) / 5) + 0.7 * (((exp_years : ℝ) - 5) / 5)
  else if exp_years ≤ 15 then
    0.7 * (1 - ((exp_years : ℝ) - 10) / 5) + 0.5 * (((exp_years : ℝ) - 10) / 5)
  else 0.5

/-- `CrowdEngine.compute`: `alpha * noise_norm * exp_mod * stress`, clipped to
`[-8, 8]` and rounded to 3 decimals.  `match_minute` is accepted and unused,
as in the source. -/
def CrowdEngine.compute (player : PlayerState) (noise_db : ℝ) (is_home : Bool)
    (heart_rate : ℝ) (hrv : ℝ) (match_minute : ℤ) : ℝ :=
  let alpha : ℝ := if is_home then 0.08 else -0.12
  let noise_norm := (noise_db - 75.0) / 20.0
  let exp_mod := CrowdEngine.exp_mod_of_years (TIER_EXP player.resilience_tier)
  let hr_stress : ℝ :=
    if heart_rate < 80 then 0.3
    else if heart_rate < 100 then 0.7
    else if heart_rate < 120 then 1.0
    else 1.3 + (heart_rate - 120) / 50.0
  let hrv_stress := 1.0 - min 0.5 (hrv / 200.0)
  let stress := hr_stress * 0.6 + hrv_stress * 0.4
  roundTo 3 (clip (alpha * noise_norm * exp_mod * stress) (-8) 8)

/-- `CrowdEngine.apply`: stores `crowd_val` in `crowd_impact` and recalculates
the PMU (an additive contribution through `recalc_pmu`). -/
def CrowdEngine.apply (player : PlayerState) (crowd_val : ℝ) : PlayerState :=
  PlayerState.recalc_pmu { player with crowd_impact := crowd_val }

/-- `CrowdInfluenceModel.apply_crowd_impact_to_pmu` (core/crowd.py):
`max(0, pmu * (1 + (crowd_impact / 8) * 0.15))`. -/
def CrowdInfluenceModel.apply_crowd_impact_to_pmu (pmu crowd_impact : ℝ) : ℝ :=
  let multiplier := 1.0 + crowd_impact / 8 * 0.15
  max 0 (pmu * multiplier)

/-! ## Formation coherence -/

/-- `compute_formation_coherence`: table lookup, then the penalty heuristic on
the parsed line sizes, with any parse failure (the `except` branch) giving
0.82.  `formation.split('-')` with each token through `int(...)` is modelled
by `splitOn` and `String.toInt?` sequenced through `Option`. -/
def compute_formation_coherence (formation : String) : ℝ :=
  match FORMATION_COHERENCE formation with
  | some v => v
  | none =>
    match (formation.splitOn "-").mapM String.toInt? with
    | none => 0.82
    | some parts =>
      let n : ℝ := parts.length
      let mean := (parts.map fun p => (p : ℝ)).sum / n
      let variance := (parts.map fun p => ((p : ℝ) - mean) ^ 2).sum / n
      let layer_penalty := 0.015 * |n - 3|
      let variance_penalty := variance * 0.018
      let score := 0.88 - layer_penalty - variance_penalty
      roundTo 2 (max 0.70 (min 0.92 score))

/-- `statistics.stdev`: sample standard deviation (call sites guard `n ≥ 2`). -/
def stdev (xs : List ℝ) : ℝ :=
  let n : ℝ := xs.length
  let mean := xs.sum / n
  Real.sqrt ((xs.map fun v => (v - mean) ^ 2).sum / (n - 1))

/-- `FormationEngine.coherence`: blend of the lookup score (70%) with a live
spatial term from defender position spread (30%), clipped to `[0, 1]` and
rounded to 4 decimals; fewer than 2 defenders returns the lookup score. -/
def FormationEngine.coherence (players : List PlayerState) (formation : String) : ℝ :=
  let lookup := compute_formation_coherence formation
  let defenders := players.filter fun p => p.position = "DEF" ∨ p.position = "GK"
  if defenders.length < 2 then lookup
  else
    let xs := defenders.map fun p => p.x
    let ys := defenders.map fun p => p.y
    let std_x := if xs.length > 1 then stdev xs else 0.0
    let std_y := if ys.length > 1 then stdev ys else 0.0
    let avg_std := (std_x + std_y) / 2.0
    let live_coh := max 0 (1.0 - avg_std / 25.0)
    roundTo 4 (clip (0.70 * lookup + 0.30 * live_coh) 0 1)

/-! ## MonteCarloEngine and the request-layer iteration validator -/

/-- The part of the engine configuration dict that determines the iteration
count: `config.get("iterations", 500)`.  (`none` models a missing key; the
remaining keys — formations, tactics, minutes, crowd noise — are forwarded to
each `MatchSimulator` and do not affect how many runs are executed.) -/
structure MCConfig where
  iterations : Option ℤ := none

/-- `MonteCarloEngine.__init__`: `self.iterations = config.get("iterations", 500)`. -/
def MonteCarloEngine.iterations (config : MCConfig) : ℤ :=
  config.iterations.getD 500

/-- The number of `MatchSimulator` runs `MonteCarloEngine.run()` executes:
the loop `for _ in range(self.iterations)` constructs and runs one simulator
per pass, and `range(n)` has `max(n, 0)` elements.  No clamping is applied
anywhere in the class. -/
def MonteCarloEngine.run_count (config : MCConfig) : ℕ :=
  (MonteCarloEngine.iterations config).toNat

/-- `validate_iterations` (middleware/validation.py): rejects counts outside
`[10, 2000]` with a `ValidationError` (modelled as `Except.error`), and
returns the count unchanged otherwise. -/
def validate_iterations (iterations : ℤ) : Except String ℤ :=
  if iterations < 10 then .error "Iterations must be at least 10"
  else if iterations > 2000 then .error "Iterations max is 2000"
  else .ok iterations

/-! ## Concrete fixtures used in the concrete-input theorems below -/

/-- The value `cone_factor` takes when the pressurer faces the target
dead-ahead (`cos_a = 1`, `cos_half = 1/2`), as in `compute_impact`, which
passes the direction toward the target as the facing vector. -/
def coneAligned : ℝ := (1 - 1 / 2) / (1 - 1 / 2 + 1e-9)

/-- A player whose PMU before the crowd update is 50. -/
def crowdPlayer : PlayerState :=
  { id := "A1", name := "P", position := "MID", team := "A",
    resilience_tier := "experienced", skill := 8.0, speed := 8.0,
    baseline_energy := 50.0, pmu := 50.0 }

/-- A pressurer at the origin with PMU 50. -/
def pressurer50 : PlayerState :=
  { id := "B1", name := "P1", position := "DEF", team := "B",
    resilience_tier := "experienced", skill := 8.0, speed := 8.0,
    pmu := 50.0, x := 0.0, y := 0.0 }

/-- A pressurer at the origin with PMU 0. -/
def pressurer0 : PlayerState :=
  { id := "B2", name := "P0", position := "DEF", team := "B",
    resilience_tier := "experienced", skill := 8.0, speed := 8.0,
    pmu := 0.0, x := 0.0, y := 0.0 }

/-- A target 1 metre from the origin along the x-axis. -/
def targetD1 : PlayerState :=
  { id := "A2", name := "T1", position := "MID", team := "A",
    resilience_tier := "experienced", skill := 8.0, speed := 8.0,
    x := 1.0, y := 0.0 }

/-- A target 2 metres from the origin along the x-axis. -/
def targetD2 : PlayerState :=
  { id := "A3", name := "T2", position := "MID", team := "A",
    resilience_tier := "experienced", skill := 8.0, speed := 8.0,
    x := 2.0, y := 0.0 }

end

/-! # Helper lemmas -/

theorem le_clip (x lo hi : ℝ) : lo ≤ clip x lo hi := le_max_left _ _

theorem clip_le {x lo hi : ℝ} (h : lo ≤ hi) : clip x lo hi ≤ hi :=
  max_le h (min_le_right _ _)

theorem clip_eq_self {x lo hi : ℝ} (h1 : lo ≤ x) (h2 : x ≤ hi) : clip x lo hi = x := by
  unfold clip
  rw [min_eq_left h2, max_eq_right h1]

theorem clip_mono {x y : ℝ} (lo hi : ℝ) (h : x ≤ y) : clip x lo hi ≤ clip y lo hi :=
  max_le_max le_rfl (min_le_min h le_rfl)

theorem roundTo_mono (k : ℕ) {x y : ℝ} (h : x ≤ y) : roundTo k x ≤ roundTo k y := by
  unfold roundTo
  have hp : (0 : ℝ) < 10 ^ k := by positivity
  rw [div_le_div_iff_of_pos_right hp]
  have hr : round (x * 10 ^ k) ≤ round (y * 10 ^ k) := by
    rw [round_eq, round_eq]
    exact Int.floor_mono (by nlinarith)
  exact_mod_cast hr

theorem roundTo_int_div (k : ℕ) (m : ℤ) : roundTo k ((m : ℝ) / 10 ^ k) = (m : ℝ) / 10 ^ k := by
  unfold roundTo
  have hp : (10 : ℝ) ^ k ≠ 0 := by positivity
  rw [div_mul_cancel₀ _ hp, round_intCast]

theorem abs_roundTo_sub (k : ℕ) (x : ℝ) : |roundTo k x - x| ≤ 1 / (2 * 10 ^ k) := by
  unfold roundTo
  have hp : (0 : ℝ) < 10 ^ k := by positivity
  have h := abs_sub_round (x * 10 ^ k)
  have hx : (round (x * 10 ^ k) : ℝ) / 10 ^ k - x = ((round (x * 10 ^ k) : ℝ) - x * 10 ^ k) / 10 ^ k := by
    field_simp
    ring
  rw [hx, abs_div, abs_of_pos hp, div_le_div_iff₀ hp (by positivity)]
  rw [abs_sub_comm] at h
  nlinarith

theorem roundTo_le_add (k : ℕ) (x : ℝ) : roundTo k x ≤ x + 1 / (2 * 10 ^ k) := by
  have h := abs_roundTo_sub k x
  have := abs_le.mp h
  linarith [this.2]

theorem sub_le_roundTo (k : ℕ) (x : ℝ) : x - 1 / (2 * 10 ^ k) ≤ roundTo k x := by
  have h := abs_roundTo_sub k x
  have := abs_le.mp h
  linarith [this.1]

theorem roundTo_lt_roundTo (k : ℕ) {x y : ℝ} (h : x + 1 / 10 ^ k < y) :
    roundTo k x < roundTo k y := by
  have h1 := roundTo_le_add k x
  have h2 := sub_le_roundTo k y
  have hp : (0 : ℝ) < 10 ^ k := by positivity
  have : 1 / (2 * 10 ^ k) + 1 / (2 * 10 ^ k) = 1 / (10 : ℝ) ^ k := by
    field_simp; ring
  linarith

theorem roundTo_mem (k : ℕ) {a b x : ℝ} (ha : roundTo k a = a) (hb : roundTo k b = b)
    (h1 : a ≤ x) (h2 : x ≤ b) : a ≤ roundTo k x ∧ roundTo k x ≤ b :=
  ⟨ha ▸ roundTo_mono k h1, hb ▸ roundTo_mono k h2⟩

theorem resilience_pos (p : PlayerState) : 0 < p.resilience := by
  unfold PlayerState.resilience RESILIENCE_MAP
  split_ifs <;> norm_num

theorem decay_rate_pos (et : String) : 0 < DECAY_RATES et := by
  unfold DECAY_RATES
  split_ifs <;> norm_num

/-! # C1 -/

/-- C1: for every player state, `recalc_pmu()` sets
`pmu = clamp(baseline_energy + event_impact + crowd_impact - 0.30*fatigue, 0, 100)`,
so `0 ≤ pmu ≤ 100` holds for arbitrary accumulator values; and after every
`FatigueModel.update` call, `0 ≤ fatigue ≤ 100` (and the PMU bounds hold as
well, since `update` ends with `recalc_pmu()`). -/
theorem claim_C1_pmu_fatigue_invariants :
    (∀ p : PlayerState,
      p.recalc_pmu.pmu
        = clip (p.baseline_energy + p.event_impact + p.crowd_impact - 0.30 * p.fatigue) 0 100
      ∧ 0 ≤ p.recalc_pmu.pmu ∧ p.recalc_pmu.pmu ≤ 100)
    ∧ (∀ (p : PlayerState) (speed distance acceleration : ℝ) (sprint_events : ℤ)
        (is_stoppage : Bool),
      0 ≤ (FatigueModel.update p speed distance acceleration sprint_events is_stoppage).fatigue
      ∧ (FatigueModel.update p speed distance acceleration sprint_events is_stoppage).fatigue ≤ 100
      ∧ 0 ≤ (FatigueModel.update p speed distance acceleration sprint_events is_stoppage).pmu
      ∧ (FatigueModel.update p speed distance acceleration sprint_events is_stoppage).pmu ≤ 100) := by
  constructor
  · intro p
    refine ⟨by simp [PlayerState.recalc_pmu]; ring_nf, le_clip _ _ _, clip_le (by norm_num)⟩
  · intro p speed distance acceleration sprint_events is_stoppage
    unfold FatigueModel.update PlayerState.recalc_pmu
    exact ⟨le_clip _ _ _, clip_le (by norm_num), le_clip _ _ _, clip_le (by norm_num)⟩

/-! # C2 -/

/-- C2 counterexample: a configuration requesting 5000 iterations makes
`MonteCarloEngine.run()` execute 5000 `MatchSimulator` runs — the engine does
not clamp the count into `[10, 2000]`. -/
theorem claim_C2_counterexample :
    ¬ (10 ≤ MonteCarloEngine.run_count { iterations := some 5000 }
       ∧ MonteCarloEngine.run_count { iterations := some 5000 } ≤ 2000) := by
  intro h
  exact absurd h.2 (by decide)

/-- C2 (amended): `MonteCarloEngine.run()` executes exactly the configured
iteration count, taken verbatim from `config.get("iterations", 500)` with no
clamping (default 500 when the key is absent); the `[10, 2000]` bounds are
enforced only at the external validation boundary, where `validate_iterations`
rejects — rather than clamps — out-of-range counts and passes in-range counts
through unchanged. -/
theorem claim_C2_iterations_not_clamped :
    (∀ config : MCConfig,
      MonteCarloEngine.run_count config = (config.iterations.getD 500).toNat)
    ∧ MonteCarloEngine.run_count {} = 500
    ∧ (∀ n : ℤ, validate_iterations n = .ok n ↔ 10 ≤ n ∧ n ≤ 2000)
    ∧ (∀ n : ℤ, (∃ e, validate_iterations n = .error e) ↔ (n < 10 ∨ 2000 < n)) := by
  refine ⟨fun _ => rfl, rfl, fun n => ?_, fun n => ?_⟩
  · unfold validate_iterations
    split_ifs with h1 h2
    · simp
      omega
    · simp
      omega
    · simp
      omega
  · unfold validate_iterations
    split_ifs with h1 h2
    · simp
      omega
    · simp
      omega
    · simp
      omega

/-! # C3 -/

/-- C3 counterexample: `CrowdEngine.apply` with crowd impact 8 on a player
with PMU 50 yields PMU 58 — an additive update; no multiplicative adjustment
with `|delta| ≤ 0.15` produces 58 from 50. -/
theorem claim_C3_counterexample :
    ¬ ∃ δ : ℝ, |δ| ≤ 0.15
      ∧ (CrowdEngine.apply crowdPlayer 8).pmu = crowdPlayer.pmu * (1 + δ) := by
  rintro ⟨δ, hδ, heq⟩
  have hpmu : (CrowdEngine.apply crowdPlayer 8).pmu = 58 := by
    unfold CrowdEngine.apply PlayerState.recalc_pmu crowdPlayer
    simp
    rw [clip_eq_self (by norm_num) (by norm_num)]
    norm_num
  have h50 : crowdPlayer.pmu = 50 := by norm_num [crowdPlayer]
  rw [hpmu, h50] at heq
  have := abs_le.mp hδ
  nlinarith

/-- C3 (amended): `CrowdEngine.apply` itself is additive (it stores the crowd
value and recomputes the clamped PMU sum); the multiplicative cap belongs to
`CrowdInfluenceModel.apply_crowd_impact_to_pmu` in `core/crowd.py`, which for
any nonnegative PMU and any crowd impact in `[-8, 8]` (the range
`CrowdEngine.compute` guarantees) adjusts the PMU multiplicatively by a factor
`1 + δ` with `|δ| ≤ 0.15`. -/
theorem claim_C3_multiplicative_cap (pmu c : ℝ) (h0 : 0 ≤ pmu) (h8 : |c| ≤ 8) :
    ∃ δ : ℝ, |δ| ≤ 0.15
      ∧ CrowdInfluenceModel.apply_crowd_impact_to_pmu pmu c = pmu * (1 + δ) := by
  have hc := abs_le.mp h8
  refine ⟨c / 8 * 0.15, ?_, ?_⟩
  · have ha : |(0.15 : ℝ)| = 0.15 := by rw [abs_of_nonneg]; norm_num
    have hb : |(8 : ℝ)| = 8 := by rw [abs_of_nonneg]; norm_num
    rw [abs_mul, abs_div, ha, hb]
    nlinarith [abs_nonneg c]
  · unfold CrowdInfluenceModel.apply_crowd_impact_to_pmu
    have hpos : 0 ≤ pmu * (1.0 + c / 8 * 0.15) := by nlinarith
    rw [max_eq_right hpos]
    norm_num

/-- Witness for C3 (amended) at PMU 40 and crowd impact 8. -/
theorem claim_C3_multiplicative_cap_witness :
    ∃ δ : ℝ, |δ| ≤ 0.15
      ∧ CrowdInfluenceModel.apply_crowd_impact_to_pmu 40 8 = 40 * (1 + δ) :=
  claim_C3_multiplicative_cap 40 8 (by norm_num) (by rw [abs_of_nonneg] <;> norm_num)

/-! # C10 -/

/-- C10: if a player's accumulated `event_impact` is ≤ 0 (as after a
`goal_conceded` penalty), a single `DecayModel.apply` — any event type, any
`dt > 0` — sets `event_impact` to exactly 0: the update floors
`event_impact * resilience - decay_amount` at 0, and that quantity is
nonpositive here. -/
theorem claim_C10_nonpositive_impact_erased (p : PlayerState) (et : String) (dt : ℝ)
    (hE : p.event_impact ≤ 0) (hdt : 0 < dt) :
    (DecayModel.apply p et dt).event_impact = 0 := by
  unfold DecayModel.apply PlayerState.recalc_pmu
  simp only
  have hres := resilience_pos p
  have hprod : p.event_impact * p.resilience ≤ 0 :=
    mul_nonpos_of_nonpos_of_nonneg hE hres.le
  have hdecay : (0 : ℝ) ≤
      (if et = "goal_conceded" then
        |p.event_impact| * (1.0 - Real.exp (-GOAL_CONCEDED_LAMBDA * dt))
      else DECAY_RATES et * dt) := by
    split_ifs
    · have hexp : Real.exp (-GOAL_CONCEDED_LAMBDA * dt) ≤ 1 := by
        rw [Real.exp_le_one_iff]
        unfold GOAL_CONCEDED_LAMBDA
        nlinarith
      have := abs_nonneg p.event_impact
      nlinarith
    · exact le_of_lt (mul_pos (decay_rate_pos et) hdt)
  rw [max_eq_left (by linarith)]

/-- Witness for C10: a player carrying `event_impact = -5` has it erased to 0
by one `apply("pass", dt=1)`. -/
theorem claim_C10_witness :
    (DecayModel.apply
      { id := "B1", name := "Q", position := "DEF", team := "B",
        resilience_tier := "veteran", skill := 8.0, speed := 8.0,
        event_impact := -5.0 } "pass" 1).event_impact = 0 :=
  claim_C10_nonpositive_impact_erased _ "pass" 1 (by norm_num) (by norm_num)

/-! # C9 -/

theorem roundTo_const (k : ℕ) (m : ℤ) (c : ℝ) (hc : (m : ℝ) / 10 ^ k = c) :
    roundTo k c = c := hc ▸ roundTo_int_div k m

theorem cfc_bounds (f : String) :
    0.70 ≤ compute_formation_coherence f ∧ compute_formation_coherence f ≤ 0.92 := by
  unfold compute_formation_coherence FORMATION_COHERENCE
  split_ifs <;> simp only
  · exact ⟨by norm_num, by norm_num⟩
  · exact ⟨by norm_num, by norm_num⟩
  · exact ⟨by norm_num, by norm_num⟩
  · exact ⟨by norm_num, by norm_num⟩
  · exact ⟨by norm_num, by norm_num⟩
  · exact ⟨by norm_num, by norm_num⟩
  · exact ⟨by norm_num, by norm_num⟩
  · exact ⟨by norm_num, by norm_num⟩
  · exact ⟨by norm_num, by norm_num⟩
  · cases (f.splitOn "-").mapM String.toInt? with
    | none => exact ⟨by norm_num, by norm_num⟩
    | some parts =>
      simp only
      exact roundTo_mem 2 (roundTo_const 2 70 0.70 (by norm_num))
        (roundTo_const 2 92 0.92 (by norm_num)) (le_max_left _ _)
        (max_le (by norm_num) (min_le_left _ _))

/-- C9: every formation string gets a lookup-or-heuristic coherence score in
`[0.70, 0.92]` (parse failures included, via the 0.82 fallback — the scoring
never fails), and the live blended `FormationEngine.coherence` always lies in
`[0, 1]`. -/
theorem claim_C9_coherence_bounds :
    (∀ f : String,
      0.70 ≤ compute_formation_coherence f ∧ compute_formation_coherence f ≤ 0.92)
    ∧ (∀ (players : List PlayerState) (f : String),
      0 ≤ FormationEngine.coherence players f ∧ FormationEngine.coherence players f ≤ 1) := by
  refine ⟨cfc_bounds, fun players f => ?_⟩
  unfold FormationEngine.coherence
  dsimp only
  split_ifs
  · have h := cfc_bounds f
    exact ⟨by linarith [h.1], by linarith [h.2]⟩
  all_goals
    exact roundTo_mem 4 (roundTo_const 4 0 0 (by norm_num))
      (roundTo_const 4 10000 1 (by norm_num)) (le_clip _ _ _)
      (le_trans (clip_le (by norm_num)) (by norm_num))

/-! # C8 -/

theorem exp_mod_tier_cases (tier : String) :
    CrowdEngine.exp_mod_of_years (TIER_EXP tier) = 0.62
    ∨ CrowdEngine.exp_mod_of_years (TIER_EXP tier) = 0.88
    ∨ CrowdEngine.exp_mod_of_years (TIER_EXP tier) = 1.1
    ∨ CrowdEngine.exp_mod_of_years (TIER_EXP tier) = 1.2
    ∨ CrowdEngine.exp_mod_of_years (TIER_EXP tier) = 1.0 := by
  unfold TIER_EXP
  split_ifs <;> unfold CrowdEngine.exp_mod_of_years <;> norm_num

theorem roundTo3_clip8_pos {x : ℝ} (h1 : 0.001 ≤ x) (h2 : x ≤ 8) :
    0 < roundTo 3 (clip x (-8) 8) := by
  rw [clip_eq_self (by linarith) h2]
  have h := sub_le_roundTo 3 x
  have he : (1 : ℝ) / (2 * 10 ^ 3) = 0.0005 := by norm_num
  rw [he] at h
  linarith

theorem roundTo3_clip8_neg {x : ℝ} (h1 : -8 ≤ x) (h2 : x ≤ -0.001) :
    roundTo 3 (clip x (-8) 8) < 0 := by
  rw [clip_eq_self h1 (by linarith)]
  have h := roundTo_le_add 3 x
  have he : (1 : ℝ) / (2 * 10 ^ 3) = 0.0005 := by norm_num
  rw [he] at h
  linarith

/-- C8: with the engine's default biometric inputs (heart rate 100, HRV 70),
`CrowdEngine.compute` at 75 dB returns exactly 0 for home and away players of
every resilience tier, and at 120 dB returns a strictly positive impact for
every home player and a strictly negative impact for every away player. -/
theorem claim_C8_crowd_noise_scenarios :
    ∀ (p : PlayerState) (m : ℤ),
      CrowdEngine.compute p 75 true 100 70 m = 0
      ∧ CrowdEngine.compute p 75 false 100 70 m = 0
      ∧ 0 < CrowdEngine.compute p 120 true 100 70 m
      ∧ CrowdEngine.compute p 120 false 100 70 m < 0 := by
  intro p m
  unfold CrowdEngine.compute
  norm_num
  have hz : roundTo 3 (clip 0 (-8) 8) = 0 := by
    rw [clip_eq_self (by norm_num) (by norm_num)]
    exact roundTo_const 3 0 0 (by norm_num)
  rcases exp_mod_tier_cases p.resilience_tier with h | h | h | h | h <;>
    rw [h] <;> norm_num [min_def] <;>
    exact ⟨hz, roundTo3_clip8_pos (by norm_num) (by norm_num),
      roundTo3_clip8_neg (by norm_num) (by norm_num)⟩

/-! # C4 -/

/-- The minute modifier stays in `[0.55, 1.35]` (the clamp bounds are exact
3-decimal values, so rounding keeps them). -/
theorem minute_modifier_mem (m : ℤ) :
    0.55 ≤ EventProcessor.minute_modifier m ∧ EventProcessor.minute_modifier m ≤ 1.35 := by
  unfold EventProcessor.minute_modifier
  dsimp only
  exact roundTo_mem 3 (roundTo_const 3 550 0.55 (by norm_num))
    (roundTo_const 3 1350 1.35 (by norm_num)) (le_max_left _ _)
    (max_le (by norm_num) (min_le_left _ _))

/-- C4: evaluating `EventProcessor.minute_modifier` at the inputs where its
docstring promises "5th min ≈ 0.70 · 45th min ≈ 1.00 · 90th min ≈ 1.30" (and
the spec reads "≈ 0.65 at kickoff"): the code returns 0.55 at minutes 0 and 5
(the sine term `0.65·(1 − cos(π·m/90))` is below the 0.55 floor for the whole
opening phase) and 0.65 — not ≈ 1.00 — at minute 45; only the 90th-minute
value 1.30 matches. -/
theorem claim_C4_minute_modifier_divergence :
    EventProcessor.minute_modifier 0 = 0.55
    ∧ EventProcessor.minute_modifier 5 = 0.55
    ∧ EventProcessor.minute_modifier 45 = 0.65
    ∧ EventProcessor.minute_modifier 90 = 1.30 := by
  refine ⟨?_, ?_, ?_, ?_⟩
  · unfold EventProcessor.minute_modifier
    dsimp only
    rw [show Real.pi * (((0 : ℤ) : ℝ) / 90) - Real.pi / 2 = -(Real.pi / 2) by push_cast; ring,
      Real.sin_neg, Real.sin_pi_div_two]
    rw [show (0.65 : ℝ) + 0.65 * -1 = 0 by norm_num]
    rw [min_eq_right (by norm_num), max_eq_left (by norm_num)]
    exact roundTo_const 3 550 0.55 (by norm_num)
  · unfold EventProcessor.minute_modifier
    dsimp only
    rw [show Real.pi * (((5 : ℤ) : ℝ) / 90) - Real.pi / 2
        = -(Real.pi / 2 - Real.pi * (5 / 90)) by push_cast; ring,
      Real.sin_neg, Real.sin_pi_div_two_sub]
    have hc1 : (1 : ℝ) / 2 ≤ Real.cos (Real.pi * (5 / 90)) := by
      have h := Real.cos_le_cos_of_nonneg_of_le_pi
        (x := Real.pi * (5 / 90)) (y := Real.pi / 3)
        (by positivity) (by linarith [Real.pi_pos]) (by nlinarith [Real.pi_pos])
      rwa [Real.cos_pi_div_three] at h
    have hc2 : Real.cos (Real.pi * (5 / 90)) ≤ 1 := Real.cos_le_one _
    rw [min_eq_right (by nlinarith), max_eq_left (by nlinarith)]
    exact roundTo_const 3 550 0.55 (by norm_num)
  · unfold EventProcessor.minute_modifier
    dsimp only
    rw [show Real.pi * (((45 : ℤ) : ℝ) / 90) - Real.pi / 2 = 0 by push_cast; ring,
      Real.sin_zero]
    rw [show (0.65 : ℝ) + 0.65 * 0 = 0.65 by norm_num]
    rw [min_eq_right (by norm_num), max_eq_right (by norm_num)]
    exact roundTo_const 3 650 0.65 (by norm_num)
  · unfold EventProcessor.minute_modifier
    dsimp only
    rw [show Real.pi * (((90 : ℤ) : ℝ) / 90) - Real.pi / 2 = Real.pi / 2 by push_cast; ring,
      Real.sin_pi_div_two]
    rw [show (0.65 : ℝ) + 0.65 * 1 = 1.3 by norm_num]
    rw [min_eq_right (by norm_num), max_eq_right (by norm_num)]
    rw [roundTo_const 3 1300 1.3 (by norm_num)]
    norm_num

/-! # C6 -/

theorem decay_apply_event_impact (p : PlayerState) (et : String) (dt : ℝ) :
    (DecayModel.apply p et dt).event_impact
      = max 0 (p.event_impact * p.resilience -
          (if et = "goal_conceded" then
            |p.event_impact| * (1.0 - Real.exp (-GOAL_CONCEDED_LAMBDA * dt))
          else DECAY_RATES et * dt)) := rfl

theorem decay_apply_tier (p : PlayerState) (et : String) (dt : ℝ) :
    (DecayModel.apply p et dt).resilience_tier = p.resilience_tier := rfl

theorem resilience_veteran {p : PlayerState} (h : p.resilience_tier = "veteran") :
    p.resilience = 0.90 := by
  unfold PlayerState.resilience RESILIENCE_MAP
  rw [h, if_pos rfl]

theorem resilience_rookie {p : PlayerState} (h : p.resilience_tier = "rookie") :
    p.resilience = 0.45 := by
  unfold PlayerState.resilience RESILIENCE_MAP
  rw [h, if_neg (by decide), if_neg (by decide), if_neg (by decide), if_pos rfl]

/-- One decay step preserves `0 ≤ rookie ≤ veteran` on the accumulated event
impact, and makes the rookie strictly smaller whenever the veteran's value
stays positive. -/
theorem decay_step_compare (v r : PlayerState) (et : String) (dt : ℝ)
    (hv : v.resilience_tier = "veteran") (hr : r.resilience_tier = "rookie")
    (h0 : 0 ≤ r.event_impact) (hle : r.event_impact ≤ v.event_impact) (hdt : 0 ≤ dt) :
    0 ≤ (DecayModel.apply r et dt).event_impact
    ∧ (DecayModel.apply r et dt).event_impact ≤ (DecayModel.apply v et dt).event_impact
    ∧ (0 < (DecayModel.apply v et dt).event_impact →
        (DecayModel.apply r et dt).event_impact < (DecayModel.apply v et dt).event_impact) := by
  rw [decay_apply_event_impact, decay_apply_event_impact, resilience_veteran hv,
    resilience_rookie hr]
  have hEv : 0 ≤ v.event_impact := le_trans h0 hle
  have hrate : 0 < DECAY_RATES et := decay_rate_pos et
  split_ifs with hgc
  · simp only [abs_of_nonneg h0, abs_of_nonneg hEv]
    set k := Real.exp (-GOAL_CONCEDED_LAMBDA * dt) with hk
    have hk0 : 0 < k := Real.exp_pos _
    refine ⟨le_max_left _ _, ?_, ?_⟩
    · rcases le_or_lt (r.event_impact * 0.45 - r.event_impact * (1.0 - k)) 0 with hc | hc
      · rw [max_eq_left hc]
        exact le_max_left _ _
      · have hr0 : 0 < r.event_impact := by
          by_contra hX
          push_neg at hX
          have h00 : r.event_impact = 0 := le_antisymm hX h0
          rw [h00] at hc
          norm_num at hc
        have hk055 : 0.55 < k := by
          by_contra hX
          push_neg at hX
          nlinarith [mul_nonneg (le_of_lt hr0) (by linarith : (0:ℝ) ≤ 0.55 - k)]
        refine max_le_max le_rfl ?_
        nlinarith [mul_nonneg (sub_nonneg.mpr hle) (by linarith : (0:ℝ) ≤ k - 0.55)]
    · intro hpos
      have hvarg : 0 < v.event_impact * 0.90 - v.event_impact * (1.0 - k) :=
        (lt_max_iff.mp hpos).resolve_left (by norm_num)
      have hEv' : 0 < v.event_impact := by
        by_contra hX
        push_neg at hX
        have h00 : v.event_impact = 0 := le_antisymm hX hEv
        rw [h00] at hvarg
        norm_num at hvarg
      have hk01 : 0.1 < k := by
        by_contra hX
        push_neg at hX
        nlinarith [mul_nonneg (le_of_lt hEv') (by linarith : (0:ℝ) ≤ 0.1 - k)]
      rw [max_eq_right (le_of_lt hvarg)]
      refine max_lt_iff.mpr ⟨hvarg, ?_⟩
      rcases lt_or_eq_of_le h0 with h | h
      · nlinarith [mul_nonneg (sub_nonneg.mpr hle) (by linarith : (0:ℝ) ≤ k - 0.1)]
      · rw [← h]
        nlinarith
  · refine ⟨le_max_left _ _, max_le_max le_rfl (by nlinarith), ?_⟩
    intro hpos
    have hvarg : 0 < v.event_impact * 0.90 - DECAY_RATES et * dt :=
      (lt_max_iff.mp hpos).resolve_left (by norm_num)
    have hc0 : 0 ≤ DECAY_RATES et * dt := mul_nonneg (le_of_lt hrate) hdt
    have hEv' : 0 < v.event_impact := by nlinarith
    rw [max_eq_right (le_of_lt hvarg)]
    exact max_lt_iff.mpr ⟨hvarg, by nlinarith⟩

/-- Iterated decay over a nonempty event sequence keeps the rookie at or
below the veteran, strictly below whenever the veteran's value is positive. -/
theorem decay_list_compare (evs : List (String × ℝ)) :
    ∀ (e : String × ℝ) (v r : PlayerState),
    v.resilience_tier = "veteran" → r.resilience_tier = "rookie" →
    0 ≤ r.event_impact → r.event_impact ≤ v.event_impact →
    0 ≤ e.2 → (∀ x ∈ evs, 0 ≤ x.2) →
    (DecayModel.applyList r (e :: evs)).event_impact
      ≤ (DecayModel.applyList v (e :: evs)).event_impact
    ∧ (0 < (DecayModel.applyList v (e :: evs)).event_impact →
        (DecayModel.applyList r (e :: evs)).event_impact
          < (DecayModel.applyList v (e :: evs)).event_impact) := by
  induction evs with
  | nil =>
    intro e v r hv hr h0 hle hdt _
    have h := decay_step_compare v r e.1 e.2 hv hr h0 hle hdt
    exact ⟨h.2.1, h.2.2⟩
  | cons e' rest ih =>
    intro e v r hv hr h0 hle hdt hdts
    have h := decay_step_compare v r e.1 e.2 hv hr h0 hle hdt
    have hstep : DecayModel.applyList v (e :: e' :: rest)
        = DecayModel.applyList (DecayModel.apply v e.1 e.2) (e' :: rest) := rfl
    have hstep' : DecayModel.applyList r (e :: e' :: rest)
        = DecayModel.applyList (DecayModel.apply r e.1 e.2) (e' :: rest) := rfl
    rw [hstep, hstep']
    exact ih e' (DecayModel.apply v e.1 e.2) (DecayModel.apply r e.1 e.2)
      (by rw [decay_apply_tier, hv]) (by rw [decay_apply_tier, hr])
      h.1 h.2.1 (hdts e' (by simp)) (fun x hx => hdts x (by simp [hx]))

/-- C6 counterexample: starting both players from the same small accumulated
impact 0.1, one `apply("goal", dt=1)` floors both the veteran's and the
rookie's `event_impact` at exactly 0 — the veteran's value is not strictly
larger, so the claimed strict inequality fails. -/
theorem claim_C6_counterexample :
    (DecayModel.apply
      { id := "A1", name := "V", position := "MID", team := "A",
        resilience_tier := "veteran", skill := 8.0, speed := 8.0,
        event_impact := 0.1 } "goal" 1).event_impact = 0
    ∧ (DecayModel.apply
      { id := "B1", name := "R", position := "MID", team := "B",
        resilience_tier := "rookie", skill := 8.0, speed := 8.0,
        event_impact := 0.1 } "goal" 1).event_impact = 0 := by
  rw [decay_apply_event_impact, decay_apply_event_impact,
    resilience_veteran rfl, resilience_rookie rfl]
  simp only [if_neg (show ¬(("goal" : String) = "goal_conceded") by decide)]
  constructor <;>
  · rw [max_eq_left (by norm_num [DECAY_RATES])]

/-- C6 (amended): for a veteran (resilience 0.90) and a rookie (resilience
0.45) starting from the same nonnegative accumulated `event_impact` and fed
the identical nonempty sequence of `DecayModel.apply` calls (any event types,
nonnegative `dt`s), the veteran's `event_impact` stays at least as large as
the rookie's after the sequence, and strictly larger whenever it has not been
floored to 0 (when both hit the 0 floor they are equal). -/
theorem claim_C6_veteran_decays_slower (v r : PlayerState) (e : String × ℝ)
    (evs : List (String × ℝ))
    (hv : v.resilience_tier = "veteran") (hr : r.resilience_tier = "rookie")
    (heq : v.event_impact = r.event_impact) (h0 : 0 ≤ r.event_impact)
    (hdt : 0 ≤ e.2) (hdts : ∀ x ∈ evs, 0 ≤ x.2) :
    (DecayModel.applyList r (e :: evs)).event_impact
      ≤ (DecayModel.applyList v (e :: evs)).event_impact
    ∧ (0 < (DecayModel.applyList v (e :: evs)).event_impact →
        (DecayModel.applyList r (e :: evs)).event_impact
          < (DecayModel.applyList v (e :: evs)).event_impact) :=
  decay_list_compare evs e v r hv hr h0 heq.ge hdt hdts

/-- Witness for C6 (amended): veteran and rookie both starting from impact 10,
one `apply("pass", dt=1)`. -/
theorem claim_C6_witness :
    (DecayModel.applyList
      { id := "B1", name := "R", position := "MID", team := "B",
        resilience_tier := "rookie", skill := 8.0, speed := 8.0,
        event_impact := 10.0 } [("pass", 1)]).event_impact
      ≤ (DecayModel.applyList
      { id := "A1", name := "V", position := "MID", team := "A",
        resilience_tier := "veteran", skill := 8.0, speed := 8.0,
        event_impact := 10.0 } [("pass", 1)]).event_impact
    ∧ (0 < (DecayModel.applyList
      { id := "A1", name := "V", position := "MID", team := "A",
        resilience_tier := "veteran", skill := 8.0, speed := 8.0,
        event_impact := 10.0 } [("pass", 1)]).event_impact →
        (DecayModel.applyList
      { id := "B1", name := "R", position := "MID", team := "B",
        resilience_tier := "rookie", skill := 8.0, speed := 8.0,
        event_impact := 10.0 } [("pass", 1)]).event_impact
          < (DecayModel.applyList
      { id := "A1", name := "V", position := "MID", team := "A",
        resilience_tier := "veteran", skill := 8.0, speed := 8.0,
        event_impact := 10.0 } [("pass", 1)]).event_impact) :=
  claim_C6_veteran_decays_slower _ _ ("pass", 1) [] rfl rfl (by norm_num)
    (by norm_num) (by norm_num) (by simp)

/-! # C5 -/

theorem coneAligned_pos : 0 < coneAligned := by
  unfold coneAligned
  norm_num

/-- On a ray from the pressurer (unit direction `(ux, uy)`, distance
`d ≥ 0.1`), the raw pressure product evaluates to
`pmu * coherence * exp(-d/6) * coneAligned`: the facing vector passed to the
cone factor points at the target, so `cos_a = 1` and the cone term is the
constant `coneAligned`. -/
theorem raw_impact_on_ray (pr t : PlayerState) (coh ux uy d : ℝ)
    (hu : ux ^ 2 + uy ^ 2 = 1) (hd : 0.1 ≤ d)
    (hx : t.x = pr.x + d * ux) (hy : t.y = pr.y + d * uy) :
    PressureEngine.raw_impact pr t coh
      = pr.pmu * coh * Real.exp (-d / 6) * coneAligned := by
  have hd0 : (0 : ℝ) < d := by linarith
  have hdd : hypot (pr.x - t.x) (pr.y - t.y) = d := by
    unfold hypot
    rw [hx, hy]
    rw [show (pr.x - (pr.x + d * ux)) ^ 2 + (pr.y - (pr.y + d * uy)) ^ 2 = d ^ 2 by
      linear_combination (d ^ 2) * hu]
    exact Real.sqrt_sq hd0.le
  have hdd2 : hypot (t.x - pr.x) (t.y - pr.y) = d := by
    unfold hypot
    rw [hx, hy]
    rw [show (pr.x + d * ux - pr.x) ^ 2 + (pr.y + d * uy - pr.y) ^ 2 = d ^ 2 by
      linear_combination (d ^ 2) * hu]
    exact Real.sqrt_sq hd0.le
  have hdec : PressureEngine.distance_decay d = Real.exp (-d / 6) := by
    unfold PressureEngine.distance_decay PRESSURE_DECAY_RADIUS
    rw [max_eq_right hd]
    norm_num
  have hcone : PressureEngine.cone_factor pr.x pr.y (t.x - pr.x) (t.y - pr.y) t.x t.y
      = coneAligned := by
    unfold PressureEngine.cone_factor
    dsimp only
    rw [hdd2]
    rw [if_neg (by linarith : ¬ d < 0.1), if_neg (by linarith : ¬ d < 1e-9)]
    have hch : Real.cos (PRESSURE_CONE_DEG / 2 * Real.pi / 180) = 1 / 2 := by
      unfold PRESSURE_CONE_DEG
      rw [show (120.0 : ℝ) / 2 * Real.pi / 180 = Real.pi / 3 by ring]
      exact Real.cos_pi_div_three
    have hca : (t.x - pr.x) / d * ((t.x - pr.x) / d) + (t.y - pr.y) / d * ((t.y - pr.y) / d)
        = 1 := by
      rw [hx, hy]
      rw [show pr.x + d * ux - pr.x = d * ux by ring, show pr.y + d * uy - pr.y = d * uy by ring]
      rw [mul_div_cancel_left₀ ux hd0.ne', mul_div_cancel_left₀ uy hd0.ne']
      linear_combination hu
    rw [hca, hch]
    rw [if_neg (by norm_num : ¬ (1 : ℝ) < 1 / 2)]
    rw [max_eq_right (by norm_num : (0 : ℝ) ≤ (1 - 1 / 2) / (1 - 1 / 2 + 1e-9))]
    rfl
  unfold PressureEngine.raw_impact
  dsimp only
  rw [hdd, hdec, hcone]

/-- C5 (amended): every pressure impact lies in `[0, 50]`; and along a fixed
direction from the pressurer with everything else fixed, the rounded, clamped
impact never increases with distance (for distances ≥ 0.1 m), while the
underlying raw product `pmu * coherence * e^{-d/6} * cone` strictly decreases
provided `pmu * coherence > 0`. -/
theorem claim_C5_pressure_bounds_and_decay :
    (∀ (pr t : PlayerState) (coh : ℝ),
      0 ≤ PressureEngine.compute_impact pr t coh
      ∧ PressureEngine.compute_impact pr t coh ≤ 50)
    ∧ (∀ (pr t1 t2 : PlayerState) (coh ux uy d1 d2 : ℝ),
      ux ^ 2 + uy ^ 2 = 1 → 0.1 ≤ d1 → d1 < d2 →
      t1.x = pr.x + d1 * ux → t1.y = pr.y + d1 * uy →
      t2.x = pr.x + d2 * ux → t2.y = pr.y + d2 * uy →
      PressureEngine.compute_impact pr t2 coh ≤ PressureEngine.compute_impact pr t1 coh
      ∧ (0 < pr.pmu * coh →
          PressureEngine.raw_impact pr t2 coh < PressureEngine.raw_impact pr t1 coh)) := by
  constructor
  · intro pr t coh
    unfold PressureEngine.compute_impact
    exact roundTo_mem 3 (roundTo_const 3 0 0 (by norm_num))
      (roundTo_const 3 50000 50 (by norm_num)) (le_clip _ _ _) (clip_le (by norm_num))
  · intro pr t1 t2 coh ux uy d1 d2 hu hd1 hlt hx1 hy1 hx2 hy2
    have hr1 := raw_impact_on_ray pr t1 coh ux uy d1 hu hd1 hx1 hy1
    have hr2 := raw_impact_on_ray pr t2 coh ux uy d2 hu (by linarith) hx2 hy2
    have hexp : Real.exp (-d2 / 6) < Real.exp (-d1 / 6) :=
      Real.exp_lt_exp.mpr (by linarith)
    have hc := coneAligned_pos
    have hraw : 0 < pr.pmu * coh →
        PressureEngine.raw_impact pr t2 coh < PressureEngine.raw_impact pr t1 coh := by
      intro hP
      rw [hr1, hr2]
      nlinarith [mul_pos hP hc, Real.exp_pos (-d2 / 6), Real.exp_pos (-d1 / 6)]
    refine ⟨?_, hraw⟩
    rcases le_or_lt (pr.pmu * coh) 0 with hP | hP
    · have hz : ∀ e : ℝ, 0 < e → pr.pmu * coh * e * coneAligned ≤ 0 := fun e he =>
        mul_nonpos_of_nonpos_of_nonneg (mul_nonpos_of_nonpos_of_nonneg hP he.le) hc.le
      have hclip : ∀ x : ℝ, x ≤ 0 → clip x 0 50 = 0 := fun x hx => by
        unfold clip
        rw [min_eq_left (by linarith), max_eq_left hx]
      unfold PressureEngine.compute_impact
      rw [hr1, hr2, hclip _ (hz _ (Real.exp_pos _)), hclip _ (hz _ (Real.exp_pos _))]
    · unfold PressureEngine.compute_impact
      exact roundTo_mono 3 (clip_mono _ _ (le_of_lt (hraw hP)))

/-- C5 counterexample: a pressurer with PMU 0 produces impact exactly 0 at
distance 1 and at distance 2 — the impact does not strictly decrease as the
distance increases. -/
theorem claim_C5_counterexample :
    PressureEngine.compute_impact pressurer0 targetD1 0.87 = 0
    ∧ PressureEngine.compute_impact pressurer0 targetD2 0.87 = 0 := by
  have hz : ∀ t : PlayerState, PressureEngine.raw_impact pressurer0 t 0.87 = 0 := by
    intro t
    unfold PressureEngine.raw_impact pressurer0
    dsimp only
    norm_num
  constructor <;>
  · unfold PressureEngine.compute_impact
    rw [hz, clip_eq_self le_rfl (by norm_num)]
    exact roundTo_const 3 0 0 (by norm_num)

/-- Witness for C5 (amended): pressurer with PMU 50 at the origin, targets at
distances 1 and 2 along the x-axis, coherence 0.8. -/
theorem claim_C5_witness :
    PressureEngine.compute_impact pressurer50 targetD2 0.8
      ≤ PressureEngine.compute_impact pressurer50 targetD1 0.8
    ∧ (0 < pressurer50.pmu * 0.8 →
        PressureEngine.raw_impact pressurer50 targetD2 0.8
          < PressureEngine.raw_impact pressurer50 targetD1 0.8) :=
  claim_C5_pressure_bounds_and_decay.2 pressurer50 targetD1 targetD2 0.8 1 0 1 2
    (by norm_num) (by norm_num) (by norm_num)
    (by norm_num [targetD1, pressurer50]) (by norm_num [targetD1, pressurer50])
    (by norm_num [targetD2, pressurer50]) (by norm_num [targetD2, pressurer50])

/-! # C7 -/

theorem pos_factor_mem (pos et : String) :
    0.8 ≤ POSITION_MODS pos et ∧ POSITION_MODS pos et ≤ 1.8 := by
  unfold POSITION_MODS
  split_ifs <;> norm_num

theorem state_factor_mem (gs : String) :
    0.9 ≤ GAME_STATE_MODS gs ∧ GAME_STATE_MODS gs ≤ 1.2 := by
  unfold GAME_STATE_MODS
  split_ifs <;> norm_num

theorem zone_factor_mem (z : String) :
    0.8 ≤ ZONE_MODS z ∧ ZONE_MODS z ≤ 1.5 := by
  unfold ZONE_MODS
  split_ifs <;> norm_num

theorem mul_mem_bounds {x y a b c d : ℝ} (h1 : a ≤ x) (h2 : x ≤ b) (h3 : c ≤ y)
    (h4 : y ≤ d) (ha : 0 < a) (hc : 0 < c) : a * c ≤ x * y ∧ x * y ≤ b * d :=
  ⟨mul_le_mul h1 h3 hc.le (by linarith),
   mul_le_mul h2 h4 (by linarith) (by linarith)⟩

/-- The product of the position, game-state, zone and minute modifiers lies in
`[0.3168, 4.374] = [0.8·0.9·0.8·0.55, 1.8·1.2·1.5·1.35]`. -/
theorem factor_bounds (p : PlayerState) (gs et : String) (m : ℤ) :
    0.3168 ≤ POSITION_MODS p.position et * GAME_STATE_MODS gs
        * ZONE_MODS (EventProcessor.zone_from_x p.x p.team) * EventProcessor.minute_modifier m
    ∧ POSITION_MODS p.position et * GAME_STATE_MODS gs
        * ZONE_MODS (EventProcessor.zone_from_x p.x p.team) * EventProcessor.minute_modifier m
      ≤ 4.374 := by
  have hp := pos_factor_mem p.position et
  have hs := state_factor_mem gs
  have hz := zone_factor_mem (EventProcessor.zone_from_x p.x p.team)
  have hm := minute_modifier_mem m
  have h1 := mul_mem_bounds hp.1 hp.2 hs.1 hs.2 (by norm_num) (by norm_num)
  have h2 := mul_mem_bounds h1.1 h1.2 hz.1 hz.2 (by norm_num) (by norm_num)
  have h3 := mul_mem_bounds h2.1 h2.2 hm.1 hm.2 (by norm_num) (by norm_num)
  constructor
  · calc (0.3168 : ℝ) = 0.8 * 0.9 * 0.8 * 0.55 := by norm_num
    _ ≤ _ := h3.1
  · calc _ ≤ (1.8 * 1.2 * 1.5 * 1.35 : ℝ) := h3.2
    _ = 4.374 := by norm_num

theorem compute_false_eq (et : String) (p : PlayerState) (gs : String) (m : ℤ) :
    EventProcessor.compute et p gs m false
      = roundTo 3 (clip (EVENT_BASE_IMPACTS et * 0.30 *
          (POSITION_MODS p.position et * GAME_STATE_MODS gs
            * ZONE_MODS (EventProcessor.zone_from_x p.x p.team)
            * EventProcessor.minute_modifier m)) (-25) 25) := by
  unfold EventProcessor.compute
  dsimp only
  rw [if_neg (show ¬ (false = true) by decide)]
  congr 1
  congr 1
  ring

theorem compute_true_eq (et : String) (p : PlayerState) (gs : String) (m : ℤ) :
    EventProcessor.compute et p gs m true
      = roundTo 3 (clip (EVENT_BASE_IMPACTS et *
          (POSITION_MODS p.position et * GAME_STATE_MODS gs
            * ZONE_MODS (EventProcessor.zone_from_x p.x p.team)
            * EventProcessor.minute_modifier m)) (-25) 25) := by
  unfold EventProcessor.compute
  dsimp only
  rw [if_pos rfl]
  congr 1
  congr 1
  ring

/-- For positive clipped inputs, scaling by 0.30 strictly reduces the rounded
value (rounding cannot bridge the 70% gap, and the upper clip only ever caps
the larger, successful value). -/
theorem mag_pos {x : ℝ} (h1 : 0.475 ≤ x) (h2 : x ≤ 66) :
    0 ≤ roundTo 3 (clip (0.30 * x) (-25) 25)
    ∧ roundTo 3 (clip (0.30 * x) (-25) 25) < roundTo 3 (clip x (-25) 25) := by
  have hy : clip (0.30 * x) (-25) 25 = 0.30 * x :=
    clip_eq_self (by linarith) (by linarith)
  have he : (1 : ℝ) / (2 * 10 ^ 3) = 0.0005 := by norm_num
  constructor
  · rw [hy]
    have h := sub_le_roundTo 3 (0.30 * x)
    rw [he] at h
    linarith
  · rcases le_or_lt x 25 with hx | hx
    · rw [hy, clip_eq_self (by linarith) hx]
      apply roundTo_lt_roundTo
      have h3 : (1 : ℝ) / 10 ^ 3 = 0.001 := by norm_num
      rw [h3]
      linarith
    · rw [hy]
      have h25 : clip x (-25) 25 = 25 := by
        unfold clip
        rw [min_eq_right hx.le, max_eq_right (by norm_num)]
      rw [h25, roundTo_const 3 25000 25 (by norm_num)]
      have h := roundTo_le_add 3 (0.30 * x)
      rw [he] at h
      linarith

/-- For negative clipped inputs, scaling by 0.30 strictly reduces the rounded
magnitude. -/
theorem mag_neg {x : ℝ} (h1 : -60 ≤ x) (h2 : x ≤ -0.475) :
    |roundTo 3 (clip (0.30 * x) (-25) 25)| < |roundTo 3 (clip x (-25) 25)| := by
  have hy : clip (0.30 * x) (-25) 25 = 0.30 * x :=
    clip_eq_self (by linarith) (by linarith)
  have he : (1 : ℝ) / (2 * 10 ^ 3) = 0.0005 := by norm_num
  have hfail := roundTo_le_add 3 (0.30 * x)
  have hfail2 := sub_le_roundTo 3 (0.30 * x)
  rw [he] at hfail hfail2
  have hfneg : roundTo 3 (0.30 * x) < 0 := by linarith
  rcases le_or_lt (-25) x with hx | hx
  · rw [hy, clip_eq_self hx (by linarith)]
    have hsucc := roundTo_le_add 3 x
    rw [he] at hsucc
    have hsneg : roundTo 3 x < 0 := by linarith
    rw [abs_of_neg hfneg, abs_of_neg hsneg]
    have h3 : (1 : ℝ) / 10 ^ 3 = 0.001 := by norm_num
    have := roundTo_lt_roundTo 3 (x := x) (y := 0.30 * x) (by rw [h3]; linarith)
    linarith
  · rw [hy]
    have h25 : clip x (-25) 25 = -25 := by
      unfold clip
      rw [min_eq_left (by linarith), max_eq_left (by linarith)]
    rw [h25, roundTo_const 3 (-25000) (-25) (by norm_num)]
    rw [abs_of_neg hfneg, abs_of_neg (by norm_num : (-25 : ℝ) < 0)]
    linarith

/-- Combined magnitude comparison for a base impact `b` that is either one of
the positive table values (in `[1.5, 15]`) or one of the negative ones (in
`[-12, -2.5]`), against any modifier product `F ∈ [0.3168, 4.374]`. -/
theorem mag_compare {b F : ℝ} (hF1 : 0.3168 ≤ F) (hF2 : F ≤ 4.374)
    (hb : (1.5 ≤ b ∧ b ≤ 15) ∨ (-12 ≤ b ∧ b ≤ -2.5)) :
    |roundTo 3 (clip (b * 0.30 * F) (-25) 25)| < |roundTo 3 (clip (b * F) (-25) 25)| := by
  have hF0 : (0 : ℝ) ≤ F := by linarith
  rw [show b * 0.30 * F = 0.30 * (b * F) by ring]
  rcases hb with ⟨h1, h2⟩ | ⟨h1, h2⟩
  · have hx1 : 0.475 ≤ b * F := by
      nlinarith [mul_le_mul h1 hF1 (by norm_num : (0:ℝ) ≤ 0.3168) (by linarith : (0:ℝ) ≤ b)]
    have hx2 : b * F ≤ 66 := by
      nlinarith [mul_le_mul h2 hF2 hF0 (by norm_num : (0:ℝ) ≤ 15)]
    have h := mag_pos hx1 hx2
    rw [abs_of_nonneg h.1, abs_of_nonneg (le_trans h.1 h.2.le)]
    exact h.2
  · have hx1 : -60 ≤ b * F := by
      nlinarith [mul_le_mul (by linarith : -b ≤ 12) hF2 hF0 (by norm_num : (0:ℝ) ≤ 12)]
    have hx2 : b * F ≤ -0.475 := by
      nlinarith [mul_le_mul (by linarith : 2.5 ≤ -b) hF1 (by norm_num : (0:ℝ) ≤ 0.3168)
        (by linarith : (0:ℝ) ≤ -b)]
    exact mag_neg hx1 hx2

/-- C7 (amended): every event impact lies in `[-25, 25]`; and for every event
type present in the `EVENT_BASE_IMPACTS` table (all event types the simulator
generates), with event type, player, game state and minute held fixed,
`success = False` yields a strictly smaller-magnitude impact than the
successful event.  (For event types absent from the table both impacts are 0,
so the table membership is needed.) -/
theorem claim_C7_event_impact_bounds_and_success :
    (∀ (et : String) (p : PlayerState) (gs : String) (m : ℤ) (s : Bool),
      -25 ≤ EventProcessor.compute et p gs m s ∧ EventProcessor.compute et p gs m s ≤ 25)
    ∧ (∀ (et : String) (p : PlayerState) (gs : String) (m : ℤ),
      et ∈ knownEventTypes →
      |EventProcessor.compute et p gs m false| < |EventProcessor.compute et p gs m true|) := by
  constructor
  · intro et p gs m s
    unfold EventProcessor.compute
    exact roundTo_mem 3 (roundTo_const 3 (-25000) (-25) (by norm_num))
      (roundTo_const 3 25000 25 (by norm_num)) (le_clip _ _ _) (clip_le (by norm_num))
  · intro et p gs m hmem
    have hF := factor_bounds p gs et m
    rw [compute_false_eq, compute_true_eq]
    fin_cases hmem <;>
      [ (rw [show EVENT_BASE_IMPACTS "pass" = 2.0 by simp [EVENT_BASE_IMPACTS]]);
        (rw [show EVENT_BASE_IMPACTS "key_pass" = 3.5 by simp [EVENT_BASE_IMPACTS]]);
        (rw [show EVENT_BASE_IMPACTS "through_ball" = 4.0 by simp [EVENT_BASE_IMPACTS]]);
        (rw [show EVENT_BASE_IMPACTS "cross" = 2.5 by simp [EVENT_BASE_IMPACTS]]);
        (rw [show EVENT_BASE_IMPACTS "tackle" = 5.0 by simp [EVENT_BASE_IMPACTS]]);
        (rw [show EVENT_BASE_IMPACTS "tackle_won" = 6.0 by simp [EVENT_BASE_IMPACTS]]);
        (rw [show EVENT_BASE_IMPACTS "interception" = 3.0 by simp [EVENT_BASE_IMPACTS]]);
        (rw [show EVENT_BASE_IMPACTS "clearance" = 2.0 by simp [EVENT_BASE_IMPACTS]]);
        (rw [show EVENT_BASE_IMPACTS "shot" = 4.0 by simp [EVENT_BASE_IMPACTS]]);
        (rw [show EVENT_BASE_IMPACTS "shot_on_target" = 5.5 by simp [EVENT_BASE_IMPACTS]]);
        (rw [show EVENT_BASE_IMPACTS "goal" = 15.0 by simp [EVENT_BASE_IMPACTS]]);
        (rw [show EVENT_BASE_IMPACTS "goal_conceded" = -10.0 by simp [EVENT_BASE_IMPACTS]]);
        (rw [show EVENT_BASE_IMPACTS "save" = 5.0 by simp [EVENT_BASE_IMPACTS]]);
        (rw [show EVENT_BASE_IMPACTS "foul" = -3.0 by simp [EVENT_BASE_IMPACTS]]);
        (rw [show EVENT_BASE_IMPACTS "yellow_card" = -4.0 by simp [EVENT_BASE_IMPACTS]]);
        (rw [show EVENT_BASE_IMPACTS "red_card" = -12.0 by simp [EVENT_BASE_IMPACTS]]);
        (rw [show EVENT_BASE_IMPACTS "turnover" = -2.5 by simp [EVENT_BASE_IMPACTS]]);
        (rw [show EVENT_BASE_IMPACTS "dribble" = 3.0 by simp [EVENT_BASE_IMPACTS]]);
        (rw [show EVENT_BASE_IMPACTS "dribble_success" = 4.5 by simp [EVENT_BASE_IMPACTS]]);
        (rw [show EVENT_BASE_IMPACTS "press" = 1.5 by simp [EVENT_BASE_IMPACTS]])] <;>
      exact mag_compare hF.1 hF.2 (by norm_num)

/-- C7 counterexample: an event type absent from the impact table (here
"offside") produces impact exactly 0 whether it succeeds or fails, so the
failed impact is not strictly smaller in magnitude than the successful one. -/
theorem claim_C7_counterexample :
    EventProcessor.compute "offside" crowdPlayer "tied" 45 false = 0
    ∧ EventProcessor.compute "offside" crowdPlayer "tied" 45 true = 0 := by
  have hb : EVENT_BASE_IMPACTS "offside" = 0 := by
    simp [EVENT_BASE_IMPACTS]
    norm_num
  rw [compute_false_eq, compute_true_eq, hb]
  rw [show ∀ y : ℝ, (0 : ℝ) * 0.30 * y = 0 from fun y => by ring,
    show ∀ y : ℝ, (0 : ℝ) * y = 0 from fun y => by ring]
  rw [clip_eq_self (by norm_num) (by norm_num)]
  exact ⟨roundTo_const 3 0 0 (by norm_num), roundTo_const 3 0 0 (by norm_num)⟩

/-- Witness for C7 (amended) at the event type "pass". -/
theorem claim_C7_witness :
    ("pass" ∈ knownEventTypes)
    ∧ |EventProcessor.compute "pass" crowdPlayer "tied" 45 false|
        < |EventProcessor.compute "pass" crowdPlayer "tied" 45 true| :=
  ⟨by simp [knownEventTypes],
   claim_C7_event_impact_bounds_and_success.2 "pass" crowdPlayer "tied" 45
     (by simp [knownEventTypes])⟩

end MomentumSim
